import Mathlib

/-!
# Verification of the astrometry-api-server solve/execute core

A shallow embedding in Lean 4 of the parts of the Go repository
`astrometry-api-server` that its specification makes claims about:

* `internal/astrometry/executor.go` — the allowlist-gated `Execute` wrapper
  around the astrometry.net command-line tools;
* `internal/handlers/solve.go` — the HTTP solve handler `ServeHTTP`, its
  option parsing `parseSolveOptions`, the `SolveResponse` shape (with the
  `omitempty` JSON presence semantics) and its temp-file staging/cleanup.

Go `float64` values flow through the handler untouched (they are only copied
and compared with the zero value by the `omitempty` encoder), so they are
modelled as rationals.  External inputs — the HTTP request, the behaviour of
the filesystem calls, the solver client and the `strconv` parsers — are
explicit parameters of the embedded functions, so every theorem below
quantifies over them.
-/

namespace AstrometryServer

/-! ## Go standard-library string helpers

`strings.TrimSpace` trims leading and trailing runes satisfying
`unicode.IsSpace`; `isGoSpace` lists exactly the code points for which Go's
`unicode.IsSpace` returns true (the Latin-1 fast path plus the White_Space
property ranges). -/

def isGoSpace (c : Char) : Bool :=
  c = '\t' || c = '\n' || c = '\x0b' || c = '\x0c' || c = '\r' || c = ' ' ||
  c = '\u0085' || c = ' ' ||
  c = ' ' ||
  (' ' ≤ c && c ≤ ' ') ||
  c = ' ' || c = ' ' || c = ' ' || c = ' ' || c = '　'

/-- Remove trailing characters satisfying `isGoSpace` from a character list. -/
def trimRight (l : List Char) : List Char :=
  (l.reverse.dropWhile isGoSpace).reverse

/-- `strings.TrimSpace`: drop leading and trailing Unicode whitespace. -/
def trimSpace (s : String) : String :=
  String.mk (trimRight (s.toList.dropWhile isGoSpace))

/-- `strings.ToLower` restricted to its ASCII fast path (the only case the
handler meets: file extensions).  Maps `A`–`Z` to `a`–`z`. -/
def lowerChar (c : Char) : Char :=
  if 'A' ≤ c && c ≤ 'Z' then Char.ofNat (c.toNat + 32) else c

def toLowerAscii (s : String) : String :=
  String.mk (s.toList.map lowerChar)

/-- Helper for `filepathExt`: walk the path from its end (the reversed list),
carrying the characters already passed (`acc`, in original order); stop with
`""` at a path separator, or return from the final dot onwards. -/
def extFromRev : List Char → List Char → List Char
  | _, [] => []
  | acc, c :: rest =>
    if c = '.' then c :: acc
    else if c = '/' then []
    else extFromRev (c :: acc) rest

/-- `filepath.Ext`: the suffix beginning at the final dot in the final
slash-separated element of `path`; empty if there is no dot. -/
def filepathExt (path : String) : String :=
  String.mk (extFromRev [] path.toList.reverse)

/-! ## `internal/astrometry/executor.go` -/

/-- Binary name constants for astrometry.net solver tools. -/
def SolveField : String := "solve-field"

def Image2XY : String := "image2xy"

def FitWCS : String := "fit-wcs"

def WcsXY2RD : String := "wcs-xy2rd"

def WcsRD2XY : String := "wcs-rd2xy"

/-- The keys of the Go map `validBinaries`. -/
def validBinariesList : List String :=
  [SolveField, Image2XY, FitWCS, WcsXY2RD, WcsRD2XY]

/-- `validBinaries[binary]`: a Go map lookup compares the key for exact
string equality against the stored keys — membership in the five-element
allowlist, nothing else. -/
def validBinaries (binary : String) : Bool :=
  validBinariesList.contains binary

/-- One spawned external process: what `exec.Command` was given. -/
structure SpawnEvent where
  binary : String
  args : List String
  deriving Repr, DecidableEq

/-- The ambient OS behaviour `Execute` depends on:
`combinedOutput binary args` is what `exec.Command(binary, args...)`'s
`CombinedOutput()` returns — the raw combined stdout/stderr text and an
optional error message. -/
structure ProcEnv where
  combinedOutput : String → List String → String × Option String

/-- Result of one `Execute` call, together with the trace of processes it
spawned. -/
structure ExecOut where
  spawns : List SpawnEvent
  output : String
  err : Option String
  deriving Repr

/-- `Execute` from `executor.go`: validate the binary name against the
allowlist; on failure return the `invalid binary name` error without
spawning anything; otherwise run the command and return its combined
output trimmed of surrounding whitespace. -/
def Execute (env : ProcEnv) (binary : String) (args : List String) : ExecOut :=
  if !validBinaries binary then
    { spawns := [], output := "", err := some ("invalid binary name: " ++ binary) }
  else
    let res := env.combinedOutput binary args
    { spawns := [{ binary := binary, args := args }],
      output := trimSpace res.1, err := res.2 }

/-! ## `internal/handlers/solve.go` — data model

`client.Result` and `client.SolveOptions` come from the external library
`astrometry-go-client`; the handler only reads and copies their fields, so
they are embedded structurally.  `float64` fields are modelled as `Rat`. -/

/-- `client.Result`: what `client.Solve` reports (the fields `solve.go`
reads). -/
structure GoResult where
  Solved : Bool
  RA : Rat
  Dec : Rat
  PixelScale : Rat
  Rotation : Rat
  FieldWidth : Rat
  FieldHeight : Rat
  WCSHeader : List (String × String)
  SolveTime : Rat
  RawOutput : String
  deriving Repr, DecidableEq

/-- `client.SolveOptions`: the fields `parseSolveOptions` assigns. -/
structure SolveOptions where
  ScaleLow : Rat
  ScaleHigh : Rat
  ScaleUnits : String
  DownsampleFactor : Int
  DepthLow : Int
  DepthHigh : Int
  RA : Rat
  Dec : Rat
  Radius : Rat
  KeepTempFiles : Bool
  deriving Repr, DecidableEq

/-- The `strconv` parsers the handler calls.  Their graphs are opaque to
this layer (Go standard library), so they are parameters: `none` models a
non-nil `err`, `some v` a successful parse. -/
structure Strconv where
  parseFloat : String → Option Rat
  atoi : String → Option Int
  parseBool : String → Option Bool

/-! `parseSolveOptions` is ten sequential Go if-blocks, each reading one
form field and conditionally overwriting one field of `opts`; each block is
transcribed as one step function and the function is their composition in
source order. -/

def stepScaleLow (sc : Strconv) (form : String → String)
    (opts : SolveOptions) : SolveOptions :=
  if form "scale_low" ≠ "" then
    match sc.parseFloat (form "scale_low") with
    | some f => { opts with ScaleLow := f }
    | none => opts
  else opts

def stepScaleHigh (sc : Strconv) (form : String → String)
    (opts : SolveOptions) : SolveOptions :=
  if form "scale_high" ≠ "" then
    match sc.parseFloat (form "scale_high") with
    | some f => { opts with ScaleHigh := f }
    | none => opts
  else opts

def stepScaleUnits (form : String → String)
    (opts : SolveOptions) : SolveOptions :=
  if form "scale_units" ≠ "" then
    { opts with ScaleUnits := form "scale_units" }
  else opts

def stepDownsampleFactor (sc : Strconv) (form : String → String)
    (opts : SolveOptions) : SolveOptions :=
  if form "downsample_factor" ≠ "" then
    match sc.atoi (form "downsample_factor") with
    | some i => { opts with DownsampleFactor := i }
    | none => opts
  else opts

def stepDepthLow (sc : Strconv) (form : String → String)
    (opts : SolveOptions) : SolveOptions :=
  if form "depth_low" ≠ "" then
    match sc.atoi (form "depth_low") with
    | some i => { opts with DepthLow := i }
    | none => opts
  else opts

def stepDepthHigh (sc : Strconv) (form : String → String)
    (opts : SolveOptions) : SolveOptions :=
  if form "depth_high" ≠ "" then
    match sc.atoi (form "depth_high") with
    | some i => { opts with DepthHigh := i }
    | none => opts
  else opts

def stepRA (sc : Strconv) (form : String → String)
    (opts : SolveOptions) : SolveOptions :=
  if form "ra" ≠ "" then
    match sc.parseFloat (form "ra") with
    | some f => { opts with RA := f }
    | none => opts
  else opts

def stepDec (sc : Strconv) (form : String → String)
    (opts : SolveOptions) : SolveOptions :=
  if form "dec" ≠ "" then
    match sc.parseFloat (form "dec") with
    | some f => { opts with Dec := f }
    | none => opts
  else opts

def stepRadius (sc : Strconv) (form : String → String)
    (opts : SolveOptions) : SolveOptions :=
  if form "radius" ≠ "" then
    match sc.parseFloat (form "radius") with
    | some f => { opts with Radius := f }
    | none => opts
  else opts

def stepKeepTempFiles (sc : Strconv) (form : String → String)
    (opts : SolveOptions) : SolveOptions :=
  if form "keep_temp_files" ≠ "" then
    match sc.parseBool (form "keep_temp_files") with
    | some b => { opts with KeepTempFiles := b }
    | none => opts
  else opts

/-- `parseSolveOptions`: start from `client.DefaultSolveOptions()` (the
`defaults` parameter — the default record lives in the client library) and
run the ten field blocks in source order; `form` models `r.FormValue`,
which returns `""` for an absent field. -/
def parseSolveOptions (sc : Strconv) (defaults : SolveOptions)
    (form : String → String) : SolveOptions :=
  let opts := defaults
  let opts := stepScaleLow sc form opts
  let opts := stepScaleHigh sc form opts
  let opts := stepScaleUnits form opts
  let opts := stepDownsampleFactor sc form opts
  let opts := stepDepthLow sc form opts
  let opts := stepDepthHigh sc form opts
  let opts := stepRA sc form opts
  let opts := stepDec sc form opts
  let opts := stepRadius sc form opts
  let opts := stepKeepTempFiles sc form opts
  opts

/-- `SolveResponse` from `solve.go` (field values; JSON presence is
`presentFields`). -/
structure SolveResponse where
  Solved : Bool
  RA : Rat
  Dec : Rat
  PixelScale : Rat
  Rotation : Rat
  FieldWidth : Rat
  FieldHeight : Rat
  WCSHeader : List (String × String)
  SolveTime : Rat
  RawOutput : String
  Error : String
  deriving Repr, DecidableEq

/-- `&SolveResponse{}`: every field at its Go zero value. -/
def emptyResponse : SolveResponse :=
  { Solved := false, RA := 0, Dec := 0, PixelScale := 0, Rotation := 0,
    FieldWidth := 0, FieldHeight := 0, WCSHeader := [], SolveTime := 0,
    RawOutput := "", Error := "" }

/-- The JSON keys `encoding/json` emits for a `SolveResponse`: `solved` has
no `omitempty` and is always present; every other field carries `omitempty`
and is emitted iff its value differs from the Go zero value (0 for numbers,
empty for strings and maps). -/
def presentFields (r : SolveResponse) : List String :=
  ["solved"]
  ++ (if r.RA = 0 then [] else ["ra"])
  ++ (if r.Dec = 0 then [] else ["dec"])
  ++ (if r.PixelScale = 0 then [] else ["pixel_scale"])
  ++ (if r.Rotation = 0 then [] else ["rotation"])
  ++ (if r.FieldWidth = 0 then [] else ["field_width"])
  ++ (if r.FieldHeight = 0 then [] else ["field_height"])
  ++ (if r.WCSHeader = [] then [] else ["wcs_header"])
  ++ (if r.SolveTime = 0 then [] else ["solve_time"])
  ++ (if r.RawOutput = "" then [] else ["raw_output"])
  ++ (if r.Error = "" then [] else ["error"])

/-! ## `internal/handlers/solve.go` — the handler -/

/-- The Go map `validExts` in `ServeHTTP` (exact-key lookup). -/
def validExts (ext : String) : Bool :=
  [".jpg", ".jpeg", ".png", ".fits", ".fit"].contains ext

/-- `filepath.Join("/shared-data", fmt.Sprintf("astro_%d%s", os.Getpid(), ext))`.
For these components `filepath.Join`'s clean step is the identity, so the
path is the plain concatenation.  Note the path depends on nothing but the
server process id and the upload's extension. -/
def tempFilePath (pid : Nat) (ext : String) : String :=
  "/shared-data" ++ "/" ++ ("astro_" ++ toString pid ++ ext)

/-- One HTTP request as the handler observes it: the method, whether
`ParseMultipartForm` succeeded, the filename `FormFile("image")` yielded
(`none` models its error), and `r.FormValue`. -/
structure Request where
  method : String
  parseFormOk : Bool
  imageFile : Option String
  form : String → String

/-- Everything ambient to one invocation: the process id, the outcomes of
the filesystem calls (`os.Create`, `io.Copy`, `out.Close`), the `strconv`
parsers, `client.DefaultSolveOptions()` and the solver client.
`client.Solve` returns `(*Result, error)`; the handler reads the result
only when the error is nil, so the call is modelled as `Except`: `.error`
carries `err.Error()`, `.ok` the dereferenced result. -/
structure Env where
  pid : Nat
  createOk : Bool
  copyOk : Bool
  closeOk : Bool
  strconv : Strconv
  defaults : SolveOptions
  solve : SolveOptions → Except String GoResult

/-- Observable outcome of one `ServeHTTP` call: the HTTP status, the encoded
`SolveResponse`, the staged path (once execution reached staging) and
whether the staged file is still on disk after the handler returns.
`stagedFileFinal` reflects the `defer os.Remove(tempFile)` registered
immediately after the path is computed: every subsequent return runs it. -/
structure HandlerOut where
  status : Nat
  response : SolveResponse
  stagedPath : Option String
  stagedFileFinal : Bool

/-- `respondError`: status code plus a `SolveResponse` holding only the
error message. -/
def respondErrorOut (message : String) (statusCode : Nat) : HandlerOut :=
  { status := statusCode,
    response := { emptyResponse with Solved := false, Error := message },
    stagedPath := none, stagedFileFinal := false }

/-- The "Prepare response" block of `ServeHTTP` (lines 148–171): build the
`SolveResponse` from the outcome of `client.Solve`.  On a client error only
`Solved` and `Error` are assigned; otherwise `Solved`, `SolveTime` and
`RawOutput` are copied, and the seven coordinate fields only when
`result.Solved`. -/
def prepareResponse (outcome : Except String GoResult) : SolveResponse :=
  match outcome with
  | Except.error msg => { emptyResponse with Solved := false, Error := msg }
  | Except.ok result =>
    let base := { emptyResponse with
      Solved := result.Solved,
      SolveTime := result.SolveTime,
      RawOutput := result.RawOutput }
    if result.Solved then
      { base with
        RA := result.RA, Dec := result.Dec,
        PixelScale := result.PixelScale, Rotation := result.Rotation,
        FieldWidth := result.FieldWidth, FieldHeight := result.FieldHeight,
        WCSHeader := result.WCSHeader }
    else base

/-- `SolveHandler.ServeHTTP`, transcribed branch for branch.  Branches that
return before the temp path is computed report `stagedPath = none`; every
branch after it runs the deferred `os.Remove(tempFile)`, so
`stagedFileFinal = false` there unconditionally. -/
def ServeHTTP (env : Env) (req : Request) : HandlerOut :=
  if req.method ≠ "POST" then
    respondErrorOut "Method not allowed" 405
  else if !req.parseFormOk then
    respondErrorOut "Failed to parse form" 400
  else match req.imageFile with
  | none => respondErrorOut "Missing or invalid 'image' field" 400
  | some filename =>
    let ext := toLowerAscii (filepathExt filename)
    if !validExts ext then
      respondErrorOut "Invalid file type. Supported: jpg, jpeg, png, fits, fit" 400
    else
      let tempFile := tempFilePath env.pid ext
      if !env.createOk then
        { status := 500,
          response := { emptyResponse with Solved := false, Error := "Failed to save file" },
          stagedPath := some tempFile, stagedFileFinal := false }
      else if !env.copyOk then
        { status := 500,
          response := { emptyResponse with Solved := false, Error := "Failed to save file" },
          stagedPath := some tempFile, stagedFileFinal := false }
      else if !env.closeOk then
        { status := 500,
          response := { emptyResponse with Solved := false, Error := "Failed to save file" },
          stagedPath := some tempFile, stagedFileFinal := false }
      else
        let opts := parseSolveOptions env.strconv env.defaults req.form
        { status := 200, response := prepareResponse (env.solve opts),
          stagedPath := some tempFile, stagedFileFinal := false }

/-! ## The spec-shaped override semantics

`overrideVal` is the specification's reading of one option block: the form
value overrides the default exactly when it is non-empty and parses.  It is
deliberately written from the claim's words, to be compared with the
transcribed `parseSolveOptions`. -/

def overrideVal {α : Type} (parse : String → Option α) (v : String)
    (dflt : α) : α :=
  if v = "" then dflt else (parse v).getD dflt

/-! ## Concrete sample data

Used to instantiate the universally quantified environment in witnesses and
counterexamples. -/

def sampleStrconv : Strconv :=
  { parseFloat := fun s =>
      if s = "1.5" then some ((3 : Rat) / 2)
      else if s = "83.5" then some ((167 : Rat) / 2)
      else none,
    atoi := fun s => if s = "4" then some 4 else none,
    parseBool := fun s =>
      if s = "true" then some true
      else if s = "false" then some false
      else none }

/-- A stand-in for `client.DefaultSolveOptions()` (external library). -/
def sampleDefaults : SolveOptions :=
  { ScaleLow := 0, ScaleHigh := 0, ScaleUnits := "arcminwidth",
    DownsampleFactor := 2, DepthLow := 10, DepthHigh := 20,
    RA := 0, Dec := 0, Radius := 0, KeepTempFiles := false }

def emptyForm : String → String := fun _ => ""

/-- A well-formed solve request with no option fields set. -/
def sampleRequest : Request :=
  { method := "POST", parseFormOk := true, imageFile := some "m31.jpg",
    form := emptyForm }

/-- The same request with a different upload name (same extension). -/
def requestM42 : Request :=
  { sampleRequest with imageFile := some "m42.jpg" }

/-- A form that only sets `keep_temp_files=true`. -/
def formKeep : String → String :=
  fun key => if key = "keep_temp_files" then "true" else ""

/-- A form that sets `radius` but neither `ra` nor `dec`. -/
def formRadiusOnly : String → String :=
  fun key => if key = "radius" then "1.5" else ""

/-- An environment around one invocation with all filesystem calls
succeeding, parameterised by the solver client's behaviour. -/
def sampleEnv (solve : SolveOptions → Except String GoResult) : Env :=
  { pid := 1234, createOk := true, copyOk := true, closeOk := true,
    strconv := sampleStrconv, defaults := sampleDefaults, solve := solve }

/-- A clean no-solution result: the solver ran and found no match. -/
def resultNoSolution : GoResult :=
  { Solved := false, RA := 0, Dec := 0, PixelScale := 0, Rotation := 0,
    FieldWidth := 0, FieldHeight := 0, WCSHeader := [],
    SolveTime := 15 / 2, RawOutput := "Did not solve" }

/-- A solved result whose rotation is exactly 0 degrees (a field aligned
with the celestial axes — the spec's own worked example uses rotation ≈ 0°). -/
def resultSolvedZeroRotation : GoResult :=
  { Solved := true, RA := 83, Dec := -6,
    PixelScale := 4, Rotation := 0, FieldWidth := 2, FieldHeight := 1,
    WCSHeader := [("CTYPE1", "RA---TAN")],
    SolveTime := 6, RawOutput := "Field solved" }

/-- The well-formed request with `keep_temp_files=true` set. -/
def requestKeep : Request :=
  { sampleRequest with form := formKeep }

/-- The well-formed request with `radius` set but no `ra`/`dec`. -/
def requestRadiusOnly : Request :=
  { sampleRequest with form := formRadiusOnly }

/-- An invocation whose solver client fails with an error. -/
def envSolveError : Env :=
  sampleEnv fun _ => Except.error "exit status 1"

/-- An invocation whose solver client runs cleanly and finds no solution. -/
def envNoSolution : Env :=
  sampleEnv fun _ => Except.ok resultNoSolution

/-- An invocation whose solver client solves the field with rotation 0°. -/
def envSolvedZeroRotation : Env :=
  sampleEnv fun _ => Except.ok resultSolvedZeroRotation

/-! ## Lemmas about whitespace trimming -/

theorem dropWhile_dropWhile (p : Char → Bool) (l : List Char) :
    (l.dropWhile p).dropWhile p = l.dropWhile p := by
  induction l with
  | nil => rfl
  | cons a t ih =>
    by_cases h : p a
    · simp [List.dropWhile_cons, h, ih]
    · simp [List.dropWhile_cons, h]

theorem head_dropWhile_false (p : Char → Bool) (l : List Char) (a : Char)
    (h : (l.dropWhile p).head? = some a) : p a = false := by
  induction l with
  | nil => simp [List.dropWhile] at h
  | cons b t ih =>
    by_cases hb : p b
    · exact ih (by simpa [List.dropWhile_cons, hb] using h)
    · rw [List.dropWhile_cons, if_neg hb] at h
      simp only [List.head?_cons, Option.some.injEq] at h
      subst h
      simpa using hb

theorem trimRight_append_eq (l : List Char) :
    trimRight l ++ (l.reverse.takeWhile isGoSpace).reverse = l := by
  rw [trimRight, ← List.reverse_append, List.takeWhile_append_dropWhile,
    List.reverse_reverse]

theorem trimRight_head (l : List Char) (a : Char) (t : List Char)
    (h : trimRight l = a :: t) : l.head? = some a := by
  have hd := trimRight_append_eq l
  rw [h] at hd
  rw [← hd]
  simp

theorem trimRight_trimRight (l : List Char) :
    trimRight (trimRight l) = trimRight l := by
  simp [trimRight, dropWhile_dropWhile]

/-- `trimSpace` is idempotent: trimming an already-trimmed string changes
nothing. -/
theorem trimSpace_idem (s : String) : trimSpace (trimSpace s) = trimSpace s := by
  have h1 : (trimSpace s).toList = trimRight (s.toList.dropWhile isGoSpace) := rfl
  have h2 : (trimSpace s).toList.dropWhile isGoSpace
      = trimRight (s.toList.dropWhile isGoSpace) := by
    rw [h1]
    cases hr : trimRight (s.toList.dropWhile isGoSpace) with
    | nil => rfl
    | cons a t =>
      have hma : (s.toList.dropWhile isGoSpace).head? = some a :=
        trimRight_head _ a t hr
      have hpa : isGoSpace a = false :=
        head_dropWhile_false isGoSpace s.toList a hma
      simp [List.dropWhile_cons, hpa]
  show String.mk (trimRight ((trimSpace s).toList.dropWhile isGoSpace)) = trimSpace s
  rw [h2, trimRight_trimRight]
  rfl

/-! ## Lemmas about option parsing -/

theorem stepScaleLow_eq (sc : Strconv) (form : String → String)
    (o : SolveOptions) :
    stepScaleLow sc form o
      = { o with ScaleLow := overrideVal sc.parseFloat (form "scale_low") o.ScaleLow } := by
  unfold stepScaleLow overrideVal
  by_cases h : form "scale_low" = ""
  · simp [h]
  · simp only [h, ne_eq, not_false_iff, if_true, if_false]
    cases sc.parseFloat (form "scale_low") <;> simp

theorem stepScaleHigh_eq (sc : Strconv) (form : String → String)
    (o : SolveOptions) :
    stepScaleHigh sc form o
      = { o with ScaleHigh := overrideVal sc.parseFloat (form "scale_high") o.ScaleHigh } := by
  unfold stepScaleHigh overrideVal
  by_cases h : form "scale_high" = ""
  · simp [h]
  · simp only [h, ne_eq, not_false_iff, if_true, if_false]
    cases sc.parseFloat (form "scale_high") <;> simp

theorem stepScaleUnits_eq (form : String → String) (o : SolveOptions) :
    stepScaleUnits form o
      = { o with ScaleUnits :=
            if form "scale_units" = "" then o.ScaleUnits else form "scale_units" } := by
  unfold stepScaleUnits
  by_cases h : form "scale_units" = "" <;> simp [h]

theorem stepDownsampleFactor_eq (sc : Strconv) (form : String → String)
    (o : SolveOptions) :
    stepDownsampleFactor sc form o
      = { o with DownsampleFactor :=
            overrideVal sc.atoi (form "downsample_factor") o.DownsampleFactor } := by
  unfold stepDownsampleFactor overrideVal
  by_cases h : form "downsample_factor" = ""
  · simp [h]
  · simp only [h, ne_eq, not_false_iff, if_true, if_false]
    cases sc.atoi (form "downsample_factor") <;> simp

theorem stepDepthLow_eq (sc : Strconv) (form : String → String)
    (o : SolveOptions) :
    stepDepthLow sc form o
      = { o with DepthLow := overrideVal sc.atoi (form "depth_low") o.DepthLow } := by
  unfold stepDepthLow overrideVal
  by_cases h : form "depth_low" = ""
  · simp [h]
  · simp only [h, ne_eq, not_false_iff, if_true, if_false]
    cases sc.atoi (form "depth_low") <;> simp

theorem stepDepthHigh_eq (sc : Strconv) (form : String → String)
    (o : SolveOptions) :
    stepDepthHigh sc form o
      = { o with DepthHigh := overrideVal sc.atoi (form "depth_high") o.DepthHigh } := by
  unfold stepDepthHigh overrideVal
  by_cases h : form "depth_high" = ""
  · simp [h]
  · simp only [h, ne_eq, not_false_iff, if_true, if_false]
    cases sc.atoi (form "depth_high") <;> simp

theorem stepRA_eq (sc : Strconv) (form : String → String) (o : SolveOptions) :
    stepRA sc form o
      = { o with RA := overrideVal sc.parseFloat (form "ra") o.RA } := by
  unfold stepRA overrideVal
  by_cases h : form "ra" = ""
  · simp [h]
  · simp only [h, ne_eq, not_false_iff, if_true, if_false]
    cases sc.parseFloat (form "ra") <;> simp

theorem stepDec_eq (sc : Strconv) (form : String → String) (o : SolveOptions) :
    stepDec sc form o
      = { o with Dec := overrideVal sc.parseFloat (form "dec") o.Dec } := by
  unfold stepDec overrideVal
  by_cases h : form "dec" = ""
  · simp [h]
  · simp only [h, ne_eq, not_false_iff, if_true, if_false]
    cases sc.parseFloat (form "dec") <;> simp

theorem stepRadius_eq (sc : Strconv) (form : String → String)
    (o : SolveOptions) :
    stepRadius sc form o
      = { o with Radius := overrideVal sc.parseFloat (form "radius") o.Radius } := by
  unfold stepRadius overrideVal
  by_cases h : form "radius" = ""
  · simp [h]
  · simp only [h, ne_eq, not_false_iff, if_true, if_false]
    cases sc.parseFloat (form "radius") <;> simp

theorem stepKeepTempFiles_eq (sc : Strconv) (form : String → String)
    (o : SolveOptions) :
    stepKeepTempFiles sc form o
      = { o with KeepTempFiles :=
            overrideVal sc.parseBool (form "keep_temp_files") o.KeepTempFiles } := by
  unfold stepKeepTempFiles overrideVal
  by_cases h : form "keep_temp_files" = ""
  · simp [h]
  · simp only [h, ne_eq, not_false_iff, if_true, if_false]
    cases sc.parseBool (form "keep_temp_files") <;> simp

/-- The transcription of `parseSolveOptions` agrees field for field with the
spec-shaped override semantics: each output field is the parsed form value
when the field is non-empty and parses, and the default otherwise. -/
theorem parseSolveOptions_eq (sc : Strconv) (defaults : SolveOptions)
    (form : String → String) :
    parseSolveOptions sc defaults form =
      { ScaleLow := overrideVal sc.parseFloat (form "scale_low") defaults.ScaleLow,
        ScaleHigh := overrideVal sc.parseFloat (form "scale_high") defaults.ScaleHigh,
        ScaleUnits := if form "scale_units" = "" then defaults.ScaleUnits
          else form "scale_units",
        DownsampleFactor := overrideVal sc.atoi (form "downsample_factor")
          defaults.DownsampleFactor,
        DepthLow := overrideVal sc.atoi (form "depth_low") defaults.DepthLow,
        DepthHigh := overrideVal sc.atoi (form "depth_high") defaults.DepthHigh,
        RA := overrideVal sc.parseFloat (form "ra") defaults.RA,
        Dec := overrideVal sc.parseFloat (form "dec") defaults.Dec,
        Radius := overrideVal sc.parseFloat (form "radius") defaults.Radius,
        KeepTempFiles := overrideVal sc.parseBool (form "keep_temp_files")
          defaults.KeepTempFiles } := by
  simp only [parseSolveOptions]
  rw [stepScaleLow_eq, stepScaleHigh_eq, stepScaleUnits_eq,
    stepDownsampleFactor_eq, stepDepthLow_eq, stepDepthHigh_eq, stepRA_eq,
    stepDec_eq, stepRadius_eq, stepKeepTempFiles_eq]

/-! ## Lemmas about the handler -/

/-- The deferred `os.Remove(tempFile)` runs on every exit path, so no
invocation leaves the staged file behind. -/
theorem ServeHTTP_stagedFileFinal (env : Env) (req : Request) :
    (ServeHTTP env req).stagedFileFinal = false := by
  simp only [ServeHTTP, respondErrorOut]
  repeat' split
  all_goals rfl

/-- Once a well-formed request reaches staging, the staged path is the
pid/extension path, whatever the later branches do. -/
theorem ServeHTTP_stagedPath (env : Env) (req : Request) (fname : String)
    (hm : req.method = "POST") (hp : req.parseFormOk = true)
    (hf : req.imageFile = some fname)
    (he : validExts (toLowerAscii (filepathExt fname)) = true) :
    (ServeHTTP env req).stagedPath
      = some (tempFilePath env.pid (toLowerAscii (filepathExt fname))) := by
  simp only [ServeHTTP, hm, hp, hf, he]
  simp only [ne_eq, not_true_eq_false, if_false, Bool.not_true, Bool.false_eq_true]
  repeat' split
  all_goals rfl

/-- When the request is well-formed and every filesystem call succeeds, the
handler reaches the solve call and its outcome is exactly the prepared
response, at status 200. -/
theorem ServeHTTP_reach (env : Env) (req : Request) (fname : String)
    (hm : req.method = "POST") (hp : req.parseFormOk = true)
    (hf : req.imageFile = some fname)
    (he : validExts (toLowerAscii (filepathExt fname)) = true)
    (hcr : env.createOk = true) (hcp : env.copyOk = true)
    (hcl : env.closeOk = true) :
    ServeHTTP env req =
      { status := 200,
        response := prepareResponse
          (env.solve (parseSolveOptions env.strconv env.defaults req.form)),
        stagedPath := some (tempFilePath env.pid (toLowerAscii (filepathExt fname))),
        stagedFileFinal := false } := by
  simp [ServeHTTP, hm, hp, hf, he, hcr, hcp, hcl]

/-! ## Lemmas about JSON field presence -/

theorem mem_if_nil_singleton {c : Prop} [Decidable c] {s t : String} :
    (s ∈ (if c then ([] : List String) else [t])) ↔ ¬c ∧ s = t := by
  split <;> simp_all

theorem ra_presentFields (r : SolveResponse) :
    ("ra" ∈ presentFields r) ↔ r.RA ≠ 0 := by
  simp [presentFields, mem_if_nil_singleton]

theorem dec_presentFields (r : SolveResponse) :
    ("dec" ∈ presentFields r) ↔ r.Dec ≠ 0 := by
  simp [presentFields, mem_if_nil_singleton]

theorem pixelScale_presentFields (r : SolveResponse) :
    ("pixel_scale" ∈ presentFields r) ↔ r.PixelScale ≠ 0 := by
  simp [presentFields, mem_if_nil_singleton]

theorem rotation_presentFields (r : SolveResponse) :
    ("rotation" ∈ presentFields r) ↔ r.Rotation ≠ 0 := by
  simp [presentFields, mem_if_nil_singleton]

theorem fieldWidth_presentFields (r : SolveResponse) :
    ("field_width" ∈ presentFields r) ↔ r.FieldWidth ≠ 0 := by
  simp [presentFields, mem_if_nil_singleton]

theorem fieldHeight_presentFields (r : SolveResponse) :
    ("field_height" ∈ presentFields r) ↔ r.FieldHeight ≠ 0 := by
  simp [presentFields, mem_if_nil_singleton]

theorem wcsHeader_presentFields (r : SolveResponse) :
    ("wcs_header" ∈ presentFields r) ↔ r.WCSHeader ≠ [] := by
  simp [presentFields, mem_if_nil_singleton]

theorem solveTime_presentFields (r : SolveResponse) :
    ("solve_time" ∈ presentFields r) ↔ r.SolveTime ≠ 0 := by
  simp [presentFields, mem_if_nil_singleton]

theorem rawOutput_presentFields (r : SolveResponse) :
    ("raw_output" ∈ presentFields r) ↔ r.RawOutput ≠ "" := by
  simp [presentFields, mem_if_nil_singleton]

theorem error_presentFields (r : SolveResponse) :
    ("error" ∈ presentFields r) ↔ r.Error ≠ "" := by
  simp [presentFields, mem_if_nil_singleton]

/-! ## Claim theorems for the executor -/

/-- C2: for every string not equal (by exact string comparison) to one of
the five allowlisted binary names, `Execute` returns an error mentioning an
invalid binary name and spawns no external process.  The hypothesis is
exact string equality against the closed five-element set — no substring,
prefix or pattern matching enters the membership test. -/
theorem C2_invalid_binary_rejected (env : ProcEnv) (binary : String)
    (args : List String)
    (h : ¬ (binary = SolveField ∨ binary = Image2XY ∨ binary = FitWCS ∨
            binary = WcsXY2RD ∨ binary = WcsRD2XY)) :
    (Execute env binary args).spawns = [] ∧
    (Execute env binary args).err = some ("invalid binary name: " ++ binary) := by
  push_neg at h
  obtain ⟨h1, h2, h3, h4, h5⟩ := h
  have hv : validBinaries binary = false := by
    simp [validBinaries, validBinariesList, h1, h2, h3, h4, h5]
  rw [Execute]
  simp [hv]

/-- Witness for C2 at the concrete non-member `"../solve-field"` (a string
containing an allowlisted name as a substring, still rejected). -/
theorem C2_invalid_binary_rejected_witness :
    (¬ ("../solve-field" = SolveField ∨ "../solve-field" = Image2XY ∨
        "../solve-field" = FitWCS ∨ "../solve-field" = WcsXY2RD ∨
        "../solve-field" = WcsRD2XY)) ∧
    (Execute { combinedOutput := fun _ _ => ("", none) } "../solve-field"
        ["--help"]).spawns = [] ∧
    (Execute { combinedOutput := fun _ _ => ("", none) } "../solve-field"
        ["--help"]).err = some ("invalid binary name: " ++ "../solve-field") :=
  ⟨by decide,
   C2_invalid_binary_rejected { combinedOutput := fun _ _ => ("", none) }
     "../solve-field" ["--help"] (by decide)⟩

/-- C10: whatever binary, arguments and process behaviour, the output
string `Execute` returns is a fixed point of whitespace trimming. -/
theorem C10_output_trimSpace_fixed_point (env : ProcEnv) (binary : String)
    (args : List String) :
    trimSpace (Execute env binary args).output = (Execute env binary args).output := by
  rw [Execute]
  by_cases h : validBinaries binary
  · simp [h, trimSpace_idem]
  · simp only [h, Bool.not_false, if_pos rfl]
    rfl

/-! ## Claim theorems for the solve handler -/

/-- C1 (refuted — failing input): two distinct uploads (`m31.jpg` and
`m42.jpg`) handled concurrently by one server process (pid 1234) are staged
at the same path `/shared-data/astro_1234.jpg`: the staged path depends only
on the process id and the upload's extension, so two in-flight invocations
with the same extension share it, contrary to the claimed distinctness. -/
theorem C1_staged_path_collision :
    sampleRequest.imageFile ≠ requestM42.imageFile ∧
    (ServeHTTP (sampleEnv fun _ => Except.error "busy") sampleRequest).stagedPath
      = some (tempFilePath 1234 ".jpg") ∧
    (ServeHTTP (sampleEnv fun _ => Except.error "busy") requestM42).stagedPath
      = some (tempFilePath 1234 ".jpg") ∧
    tempFilePath 1234 ".jpg" = "/shared-data/astro_1234.jpg" :=
  ⟨by decide, rfl, rfl, rfl⟩

/-- C3: whenever an invocation stages an input file (well-formed POST with a
valid extension) and keepTempFiles parses false, the staged artifact is no
longer on disk when the invocation returns — on every exit path, because the
environment (create/copy/close success and the solver outcome) is
universally quantified. -/
theorem C3_staged_file_removed (env : Env) (req : Request) (fname : String)
    (hm : req.method = "POST") (hp : req.parseFormOk = true)
    (hf : req.imageFile = some fname)
    (he : validExts (toLowerAscii (filepathExt fname)) = true)
    (hk : (parseSolveOptions env.strconv env.defaults req.form).KeepTempFiles = false) :
    (ServeHTTP env req).stagedPath
      = some (tempFilePath env.pid (toLowerAscii (filepathExt fname))) ∧
    (ServeHTTP env req).stagedFileFinal = false :=
  ⟨ServeHTTP_stagedPath env req fname hm hp hf he,
   ServeHTTP_stagedFileFinal env req⟩

/-- Witness for C3: the no-solution invocation on `m31.jpg` stages at the
pid path and leaves nothing behind. -/
theorem C3_staged_file_removed_witness :
    (ServeHTTP envNoSolution sampleRequest).stagedPath
      = some (tempFilePath 1234 (toLowerAscii (filepathExt "m31.jpg"))) ∧
    (ServeHTTP envNoSolution sampleRequest).stagedFileFinal = false :=
  C3_staged_file_removed envNoSolution sampleRequest "m31.jpg" rfl rfl rfl
    (by decide) (by decide)

/-- C4 (refuted — counterexample): with `keep_temp_files=true` parsed from
the form, the staged input file is still removed on return
(`defer os.Remove(tempFile)` is unconditional), so the claim that it
remains on disk is false at this input. -/
theorem C4_keep_counterexample :
    (parseSolveOptions sampleStrconv sampleDefaults formKeep).KeepTempFiles = true ∧
    (ServeHTTP envNoSolution requestKeep).stagedPath
      = some (tempFilePath 1234 ".jpg") ∧
    (ServeHTTP envNoSolution requestKeep).stagedFileFinal = false := by
  refine ⟨by decide, rfl, ?_⟩
  exact ServeHTTP_stagedFileFinal envNoSolution requestKeep

/-- C4 (amended): setting `keep_temp_files` only sets the `KeepTempFiles`
flag on the options record handed to the solver client; the handler's own
staged input file is removed unconditionally on every exit path, whether or
not the caller requested retention. -/
theorem C4_keep_flag_forwarded_only (env : Env) (req : Request) (fname : String)
    (hm : req.method = "POST") (hp : req.parseFormOk = true)
    (hf : req.imageFile = some fname)
    (he : validExts (toLowerAscii (filepathExt fname)) = true)
    (hne : req.form "keep_temp_files" ≠ "")
    (hpb : env.strconv.parseBool (req.form "keep_temp_files") = some true) :
    (parseSolveOptions env.strconv env.defaults req.form).KeepTempFiles = true ∧
    (ServeHTTP env req).stagedFileFinal = false := by
  constructor
  · rw [parseSolveOptions_eq]
    simp [overrideVal, hne, hpb]
  · exact ServeHTTP_stagedFileFinal env req

/-- Witness for the amended C4 at the concrete `keep_temp_files=true`
request. -/
theorem C4_keep_flag_forwarded_only_witness :
    (parseSolveOptions sampleStrconv sampleDefaults formKeep).KeepTempFiles = true ∧
    (ServeHTTP envNoSolution requestKeep).stagedFileFinal = false :=
  C4_keep_flag_forwarded_only envNoSolution requestKeep "m31.jpg" rfl rfl rfl
    (by decide) (by decide) (by decide)

/-- C5 (refuted — counterexample): on the failure branch (the client
returned an error) the response carries neither `solveTime` nor
`rawOutput`: both stay at their zero values and are omitted by
`omitempty`. -/
theorem C5_failure_branch_counterexample :
    (ServeHTTP envSolveError sampleRequest).response.Error = "exit status 1" ∧
    "solve_time" ∉ presentFields (ServeHTTP envSolveError sampleRequest).response ∧
    "raw_output" ∉ presentFields (ServeHTTP envSolveError sampleRequest).response := by
  decide

/-- C5 (amended): `solveTime` and `rawOutput` are copied into the response
exactly when the client returns without error (solved or not); on the
client-error branch only `solved` and `error` are assigned, so both
diagnostics stay at their zero values. -/
theorem C5_diagnostics_iff_client_ok (env : Env) (req : Request)
    (fname : String)
    (hm : req.method = "POST") (hp : req.parseFormOk = true)
    (hf : req.imageFile = some fname)
    (he : validExts (toLowerAscii (filepathExt fname)) = true)
    (hcr : env.createOk = true) (hcp : env.copyOk = true)
    (hcl : env.closeOk = true) :
    (∀ result,
      env.solve (parseSolveOptions env.strconv env.defaults req.form)
          = Except.ok result →
        (ServeHTTP env req).response.SolveTime = result.SolveTime ∧
        (ServeHTTP env req).response.RawOutput = result.RawOutput) ∧
    (∀ msg,
      env.solve (parseSolveOptions env.strconv env.defaults req.form)
          = Except.error msg →
        (ServeHTTP env req).response.SolveTime = 0 ∧
        (ServeHTTP env req).response.RawOutput = "" ∧
        (ServeHTTP env req).response.Error = msg) := by
  rw [ServeHTTP_reach env req fname hm hp hf he hcr hcp hcl]
  constructor
  · intro result hres
    rw [hres]
    by_cases hs : result.Solved <;> simp [prepareResponse, hs, emptyResponse]
  · intro msg hres
    rw [hres]
    simp [prepareResponse, emptyResponse]

/-- Witness for the amended C5: the clean no-solution invocation reports
the client's solve time and raw output. -/
theorem C5_diagnostics_iff_client_ok_witness :
    (ServeHTTP envNoSolution sampleRequest).response.SolveTime = 15 / 2 ∧
    (ServeHTTP envNoSolution sampleRequest).response.RawOutput = "Did not solve" := by
  have h := (C5_diagnostics_iff_client_ok envNoSolution sampleRequest "m31.jpg"
    rfl rfl rfl (by decide) rfl rfl rfl).1 resultNoSolution rfl
  exact ⟨h.1, h.2⟩

/-- C6: when the client returns without error and reports no solution, the
handler answers 200 with `solved = false`, an empty error value, and no
`error` key in the JSON — never an error representation. -/
theorem C6_no_solution_not_error (env : Env) (req : Request) (fname : String)
    (result : GoResult)
    (hm : req.method = "POST") (hp : req.parseFormOk = true)
    (hf : req.imageFile = some fname)
    (he : validExts (toLowerAscii (filepathExt fname)) = true)
    (hcr : env.createOk = true) (hcp : env.copyOk = true)
    (hcl : env.closeOk = true)
    (hs : env.solve (parseSolveOptions env.strconv env.defaults req.form)
        = Except.ok result)
    (hns : result.Solved = false) :
    (ServeHTTP env req).status = 200 ∧
    (ServeHTTP env req).response.Solved = false ∧
    (ServeHTTP env req).response.Error = "" ∧
    "error" ∉ presentFields (ServeHTTP env req).response := by
  rw [ServeHTTP_reach env req fname hm hp hf he hcr hcp hcl, hs]
  refine ⟨rfl, ?_, ?_, ?_⟩
  · simp [prepareResponse, hns, emptyResponse]
  · simp [prepareResponse, hns, emptyResponse]
  · rw [error_presentFields]
    simp [prepareResponse, hns, emptyResponse]

/-- Witness for C6 at the concrete no-solution invocation. -/
theorem C6_no_solution_not_error_witness :
    (ServeHTTP envNoSolution sampleRequest).status = 200 ∧
    (ServeHTTP envNoSolution sampleRequest).response.Solved = false ∧
    (ServeHTTP envNoSolution sampleRequest).response.Error = "" ∧
    "error" ∉ presentFields (ServeHTTP envNoSolution sampleRequest).response :=
  C6_no_solution_not_error envNoSolution sampleRequest "m31.jpg"
    resultNoSolution rfl rfl rfl (by decide) rfl rfl rfl rfl rfl

/-- C7 (refuted — counterexample): a solved response whose rotation is
exactly 0° omits the `rotation` key (`omitempty` drops zero values), so
"present iff solved" fails in the solved direction. -/
theorem C7_zero_rotation_counterexample :
    (ServeHTTP envSolvedZeroRotation sampleRequest).response.Solved = true ∧
    "rotation" ∉ presentFields (ServeHTTP envSolvedZeroRotation sampleRequest).response := by
  decide

/-- C7 (amended): the seven coordinate fields are copied from the result
exactly when `solved` is true; when `solved` is false all seven are absent
from the JSON, and when `solved` is true each key is present iff its copied
value is non-zero (non-empty for `wcsHeader`) because of `omitempty`. -/
theorem C7_fields_iff_solved_and_nonzero (env : Env) (req : Request)
    (fname : String) (result : GoResult)
    (hm : req.method = "POST") (hp : req.parseFormOk = true)
    (hf : req.imageFile = some fname)
    (he : validExts (toLowerAscii (filepathExt fname)) = true)
    (hcr : env.createOk = true) (hcp : env.copyOk = true)
    (hcl : env.closeOk = true)
    (hs : env.solve (parseSolveOptions env.strconv env.defaults req.form)
        = Except.ok result) :
    (ServeHTTP env req).response = prepareResponse (Except.ok result) ∧
    (result.Solved = true →
      (prepareResponse (Except.ok result)).RA = result.RA ∧
      (prepareResponse (Except.ok result)).Dec = result.Dec ∧
      (prepareResponse (Except.ok result)).PixelScale = result.PixelScale ∧
      (prepareResponse (Except.ok result)).Rotation = result.Rotation ∧
      (prepareResponse (Except.ok result)).FieldWidth = result.FieldWidth ∧
      (prepareResponse (Except.ok result)).FieldHeight = result.FieldHeight ∧
      (prepareResponse (Except.ok result)).WCSHeader = result.WCSHeader ∧
      (("ra" ∈ presentFields (prepareResponse (Except.ok result))) ↔ result.RA ≠ 0) ∧
      (("dec" ∈ presentFields (prepareResponse (Except.ok result))) ↔ result.Dec ≠ 0) ∧
      (("pixel_scale" ∈ presentFields (prepareResponse (Except.ok result))) ↔ result.PixelScale ≠ 0) ∧
      (("rotation" ∈ presentFields (prepareResponse (Except.ok result))) ↔ result.Rotation ≠ 0) ∧
      (("field_width" ∈ presentFields (prepareResponse (Except.ok result))) ↔ result.FieldWidth ≠ 0) ∧
      (("field_height" ∈ presentFields (prepareResponse (Except.ok result))) ↔ result.FieldHeight ≠ 0) ∧
      (("wcs_header" ∈ presentFields (prepareResponse (Except.ok result))) ↔ result.WCSHeader ≠ [])) ∧
    (result.Solved = false →
      "ra" ∉ presentFields (prepareResponse (Except.ok result)) ∧
      "dec" ∉ presentFields (prepareResponse (Except.ok result)) ∧
      "pixel_scale" ∉ presentFields (prepareResponse (Except.ok result)) ∧
      "rotation" ∉ presentFields (prepareResponse (Except.ok result)) ∧
      "field_width" ∉ presentFields (prepareResponse (Except.ok result)) ∧
      "field_height" ∉ presentFields (prepareResponse (Except.ok result)) ∧
      "wcs_header" ∉ presentFields (prepareResponse (Except.ok result))) := by
  refine ⟨?_, ?_, ?_⟩
  · rw [ServeHTTP_reach env req fname hm hp hf he hcr hcp hcl, hs]
  · intro hsolved
    simp [prepareResponse, hsolved, emptyResponse, ra_presentFields,
      dec_presentFields, pixelScale_presentFields, rotation_presentFields,
      fieldWidth_presentFields, fieldHeight_presentFields,
      wcsHeader_presentFields]
  · intro hns
    simp [prepareResponse, hns, emptyResponse, ra_presentFields,
      dec_presentFields, pixelScale_presentFields, rotation_presentFields,
      fieldWidth_presentFields, fieldHeight_presentFields,
      wcsHeader_presentFields]

/-- Witness for the amended C7 at the solved zero-rotation invocation. -/
theorem C7_fields_iff_solved_and_nonzero_witness :
    (ServeHTTP envSolvedZeroRotation sampleRequest).response
      = prepareResponse (Except.ok resultSolvedZeroRotation) ∧
    (prepareResponse (Except.ok resultSolvedZeroRotation)).RA
      = resultSolvedZeroRotation.RA := by
  have h := C7_fields_iff_solved_and_nonzero envSolvedZeroRotation
    sampleRequest "m31.jpg" resultSolvedZeroRotation rfl rfl rfl (by decide)
    rfl rfl rfl rfl
  exact ⟨h.1, (h.2.1 rfl).1⟩

/-- C8: a request that sets `radius` but leaves `ra` and `dec` empty is not
rejected — option parsing keeps the defaults for the missing hint parts,
the parsed radius goes through to the solver options, and the handler
answers 200. -/
theorem C8_radius_without_radec_passthrough (env : Env) (req : Request)
    (fname : String) (v : Rat)
    (hm : req.method = "POST") (hp : req.parseFormOk = true)
    (hf : req.imageFile = some fname)
    (he : validExts (toLowerAscii (filepathExt fname)) = true)
    (hcr : env.createOk = true) (hcp : env.copyOk = true)
    (hcl : env.closeOk = true)
    (hrne : req.form "radius" ≠ "")
    (hrv : env.strconv.parseFloat (req.form "radius") = some v)
    (hra : req.form "ra" = "") (hdec : req.form "dec" = "") :
    (parseSolveOptions env.strconv env.defaults req.form).Radius = v ∧
    (parseSolveOptions env.strconv env.defaults req.form).RA = env.defaults.RA ∧
    (parseSolveOptions env.strconv env.defaults req.form).Dec = env.defaults.Dec ∧
    (ServeHTTP env req).status = 200 := by
  refine ⟨?_, ?_, ?_, ?_⟩
  · rw [parseSolveOptions_eq]
    simp [overrideVal, hrne, hrv]
  · rw [parseSolveOptions_eq]
    simp [overrideVal, hra]
  · rw [parseSolveOptions_eq]
    simp [overrideVal, hdec]
  · rw [ServeHTTP_reach env req fname hm hp hf he hcr hcp hcl]

/-- Witness for C8: `radius=1.5` with `ra`/`dec` absent parses to radius
3/2 over the defaults and the invocation completes with 200. -/
theorem C8_radius_without_radec_passthrough_witness :
    (parseSolveOptions sampleStrconv sampleDefaults formRadiusOnly).Radius = 3 / 2 ∧
    (parseSolveOptions sampleStrconv sampleDefaults formRadiusOnly).RA
      = sampleDefaults.RA ∧
    (parseSolveOptions sampleStrconv sampleDefaults formRadiusOnly).Dec
      = sampleDefaults.Dec ∧
    (ServeHTTP envNoSolution requestRadiusOnly).status = 200 :=
  C8_radius_without_radec_passthrough envNoSolution requestRadiusOnly
    "m31.jpg" (3 / 2) rfl rfl rfl (by decide) rfl rfl rfl (by decide)
    rfl rfl rfl

/-- C9: option parsing never rejects (it is a total function into
`SolveOptions`) and each of the nine numeric/boolean fields — and the
string field `scale_units` — takes the parsed form value exactly when the
form value is non-empty and parses, and the `DefaultSolveOptions` value
otherwise. -/
theorem C9_defaults_kept_unless_parse_succeeds (sc : Strconv)
    (defaults : SolveOptions) (form : String → String) :
    parseSolveOptions sc defaults form =
      { ScaleLow := overrideVal sc.parseFloat (form "scale_low") defaults.ScaleLow,
        ScaleHigh := overrideVal sc.parseFloat (form "scale_high") defaults.ScaleHigh,
        ScaleUnits := if form "scale_units" = "" then defaults.ScaleUnits
          else form "scale_units",
        DownsampleFactor := overrideVal sc.atoi (form "downsample_factor")
          defaults.DownsampleFactor,
        DepthLow := overrideVal sc.atoi (form "depth_low") defaults.DepthLow,
        DepthHigh := overrideVal sc.atoi (form "depth_high") defaults.DepthHigh,
        RA := overrideVal sc.parseFloat (form "ra") defaults.RA,
        Dec := overrideVal sc.parseFloat (form "dec") defaults.Dec,
        Radius := overrideVal sc.parseFloat (form "radius") defaults.Radius,
        KeepTempFiles := overrideVal sc.parseBool (form "keep_temp_files")
          defaults.KeepTempFiles } :=
  parseSolveOptions_eq sc defaults form

end AstrometryServer
